import Mathlib

set_option maxHeartbeats 1000000

/-!
Shallow embedding of the OSDG client's CurveCP tunnel protocol layer:
the packet receive/dispatch routine of src/library/tunnel_protocol.c
(function receive_packet and its helpers sendTELL, sendMESG,
client_get_nonce), and the MESG-dispatch section of the older client's
receive_packet found in src/unnamed/part_001.

External collaborators that are not part of the repository slice under
src/ (libsodium crypto primitives, protobuf unpack functions, the socket
layer, the connection bookkeeping in connection.c) are represented by an
oracle record whose fields give the outcome of each external call made
while handling one frame; the protocol logic itself is translated
directly from the C source.
-/

/-- Error kinds of the library (enum osdg_error_kind; the enum itself lives in
opensdg.h which is not under src, members are taken from their uses in the
source and from spec section 7). -/
inductive ErrorKind
  | osdg_no_error
  | osdg_socket_error
  | osdg_crypto_core_error
  | osdg_decryption_error
  | osdg_encryption_error
  | osdg_protocol_error
  | osdg_buffer_exceeded
  | osdg_server_error
  | osdg_peer_timeout
  | osdg_system_error
  deriving DecidableEq, Repr

/-- Connection mode (enum in client.h, not under src; members mode_grid and
mode_peer appear in tunnel_protocol.c, the spec lists grid, peer,
unspecified). -/
inductive ConnMode
  | mode_grid
  | mode_peer
  | mode_unspecified
  deriving DecidableEq, Repr

/-- Connection status (spec section 3; osdg_connected appears in
tunnel_protocol.c). -/
inductive ConnStatus
  | osdg_closed
  | osdg_connecting
  | osdg_forwarding
  | osdg_handshaking
  | osdg_connected
  | osdg_failed
  deriving DecidableEq, Repr

/-- Modelled from the spec: forwarding-envelope message type constants
(control_protocol.h is not under src; values from spec section 6). -/
def MSG_FORWARD_HOLD : Nat := 0x0F

/-- Modelled from the spec: MSG_FORWARD_REMOTE constant, spec section 6. -/
def MSG_FORWARD_REMOTE : Nat := 0x10

/-- Modelled from the spec: MSG_FORWARD_REPLY constant, spec section 6. -/
def MSG_FORWARD_REPLY : Nat := 0x11

/-- Modelled from the spec: MSG_FORWARD_ERROR constant, spec section 6. -/
def MSG_FORWARD_ERROR : Nat := 0x12

/-- Modelled from the spec: MESG inner data type for protocol version
negotiation, spec section 6. -/
def MSG_PROTOCOL_VERSION : Nat := 0x01

/-- Modelled from the spec: MESG inner data type for peer replies, spec
section 6. -/
def MSG_PEER_REPLY : Nat := 0x03

/-- Modelled from the spec: FORWARD_ERROR code for a grid server failure.
The numeric value is defined in a header that is not under src; only its
identity (distinct from FORWARD_PEER_TIMEOUT) matters to the dispatch. -/
def FORWARD_SERVER_ERROR : Nat := 1

/-- Modelled from the spec: FORWARD_ERROR code for a peer timeout; value not
under src, only distinctness from FORWARD_SERVER_ERROR matters. -/
def FORWARD_PEER_TIMEOUT : Nat := 2

/-- Modelled from the spec: the forwarding signature constant the client
compares against a ForwardReply. -/
def FORWARD_REMOTE_SIGNATURE : String := "MDG-SIG-PLACEHOLDER"

/-- Modelled from the spec: protocol version magic; value not under src, only
its identity matters to the comparisons. -/
def PROTOCOL_VERSION_MAGIC : Nat := 0x11223344

/-- Modelled from the spec: protocol major version (spec scenario 1 uses
major 1). -/
def PROTOCOL_VERSION_MAJOR : Nat := 1

/-- Modelled from the spec: protocol minor version (spec scenario 1 uses
minor 0). -/
def PROTOCOL_VERSION_MINOR : Nat := 0

/-- Modelled from the spec: the two-byte packet magic; value not under src,
only its identity matters to the header check. -/
def PACKET_MAGIC : Nat := 0xDD07

/-- Combine a byte list into a single natural number, big-endian; used to
model multi-byte fields read out of the receive buffer. -/
def bytesToNat (l : List Nat) : Nat := l.foldl (fun a b => a * 256 + b) 0

/-- Four-character command tags (CMD_WELC and friends are multi-byte
character constants in protocol.h, not under src); encoded injectively from
their spec-given ASCII tags. -/
def cmd_tag (s : String) : Nat := bytesToNat (s.toList.map Char.toNat)

/-- Command constant for the TELL packet. -/
def CMD_TELL : Nat := cmd_tag ("TELL")

/-- Command constant for the WELC packet. -/
def CMD_WELC : Nat := cmd_tag ("WELC")

/-- Command constant for the HELO packet. -/
def CMD_HELO : Nat := cmd_tag ("HELO")

/-- Command constant for the COOK packet. -/
def CMD_COOK : Nat := cmd_tag ("COOK")

/-- Command constant for the VOCH packet. -/
def CMD_VOCH : Nat := cmd_tag ("VOCH")

/-- Command constant for the REDY packet. -/
def CMD_REDY : Nat := cmd_tag ("REDY")

/-- Command constant for the MESG packet. -/
def CMD_MESG : Nat := cmd_tag ("MESG")

/-- Size of struct packet_header: 2-byte length prefix, 2-byte magic,
4-byte command (spec section 6 wire format). -/
def PACKET_HEADER_SIZE : Nat := 8

/-- Size of struct packetHELO: header plus 32-byte short-term public key,
8-byte nonce tail and 80-byte box (spec section 6 wire format). -/
def PACKETHELO_SIZE : Nat := 128

/-- Fixed part of struct packetMESG: header, 8-byte nonce tail and 16-byte
box overhead preceding the variable payload (spec section 6 wire format). -/
def PACKETMESG_SIZE : Nat := 32

/-- Size of struct curvecp_vouch_outer without the optional certificate
record: 16-byte pad, 32-byte client long-term pubkey, two 8-byte nonce
halves, 80-byte inner box, 1-byte haveCertificate flag (spec sections 4.3
and 6). -/
def VOUCH_OUTER_FIXED : Nat := 145

/-- Size of struct packetVOCH without the certificate record: header,
96-byte cookie, 8-byte nonce tail, 16-byte box overhead plus the encrypted
fixed outer structure (spec section 6 wire format). -/
def PACKETVOCH_SIZE : Nat := 273

/-- The certificate key-value record appended to VOCH in grid mode
(tunnel_protocol.c lines 305-313): one byte prefix length 11, the bytes of
the string written by strcpy, one byte value length 32, then 32 zero
license bytes. -/
def certificate_record : List Nat :=
  (11 : Nat) :: ((("certificate").toList.map Char.toNat) ++ ((32 : Nat) :: List.replicate 32 0))

/-- SWAP_64 converts a host-order 64-bit value to big-endian byte order
(the macro lives in a utility header not under src; the call site comments
say the protocol wants bigendian data, and the repository targets
little-endian wasm, so the conversion reverses the eight bytes). -/
def SWAP_64 (n : Nat) : Nat :=
  n % 256 * 2 ^ 56 + n / 2 ^ 8 % 256 * 2 ^ 48 + n / 2 ^ 16 % 256 * 2 ^ 40 +
    n / 2 ^ 24 % 256 * 2 ^ 32 + n / 2 ^ 32 % 256 * 2 ^ 24 + n / 2 ^ 40 % 256 * 2 ^ 16 +
    n / 2 ^ 48 % 256 * 2 ^ 8 + n / 2 ^ 56 % 256

/-- Protocol-level state of struct _osdg_connection (client.h is not under
src; the fields are those read and written by tunnel_protocol.c, with keys,
cookies and session data abstracted to opaque numbers). The transient
read-progress counters bytesReceived and bytesLeft are represented
implicitly: receive_packet is modelled at the granularity of one call that
completes a frame. -/
structure Conn where
  mode : ConnMode
  status : ConnStatus
  errorKind : ErrorKind
  nonce : Nat
  bufferSize : Nat
  clientPubkey : Nat
  clientSecret : Nat
  clientTempPubkey : Nat
  clientTempSecret : Nat
  serverPubkey : Nat
  serverCookie : Nat
  beforenmData : Nat
  deriving DecidableEq, Repr

/-- client_get_nonce (tunnel_protocol.c lines 65-69): returns the byte
swapped current counter and post-increments the 64-bit counter. -/
def client_get_nonce (client : Conn) : Nat × Conn :=
  (SWAP_64 client.nonce, { client with nonce := (client.nonce + 1) % 2 ^ 64 })

/-- State of the connection after k successive calls to client_get_nonce. -/
def run_get_nonce (c : Conn) : Nat → Conn
  | 0 => c
  | k + 1 => (client_get_nonce (run_get_nonce c k)).2

/-- Value returned by the (i+1)-th call to client_get_nonce, counting calls
from the state c. -/
def returned_nonce (c : Conn) (i : Nat) : Nat :=
  (client_get_nonce (run_get_nonce c i)).1

/-- Decoded ForwardReply protobuf message (only the field the dispatch
reads). -/
structure ForwardReply where
  signature : String
  deriving DecidableEq, Repr

/-- Decoded ForwardError protobuf message (only the field the dispatch
reads). -/
structure ForwardError where
  code : Nat
  deriving DecidableEq, Repr

/-- Decoded ProtocolVersion protobuf message. -/
structure ProtocolVersion where
  magic : Nat
  major : Nat
  minor : Nat
  deriving DecidableEq, Repr

/-- Decoded PeerReply protobuf message (only the field the dispatch
reads). -/
structure PeerReply where
  id : Nat
  deriving DecidableEq, Repr

/-- Decrypted server cookie box carried by COOK (struct curvecp_cookie),
fields abstracted to opaque numbers. -/
structure Cookie where
  serverShortTermPubkey : Nat
  cookie : Nat
  deriving DecidableEq, Repr

/-- The plaintext outer vouch structure composed while handling COOK
(struct curvecp_vouch_outer), before in-place encryption. -/
structure VouchOuter where
  clientPubkey : Nat
  nonce0 : Nat
  nonce1 : Nat
  innerBox : Nat
  haveCertificate : Nat
  certData : List Nat
  deriving DecidableEq, Repr

/-- Structured content of an outbound packet, as composed right before
send_packet. -/
inductive PacketBody
  | tellBody
  | heloBody (clientTempPubkey : Nat) (nonceTail : Nat)
  | vochBody (cookie : Nat) (nonceTail : Nat) (outer : VouchOuter) (encLen : Nat)
  | mesgBody (dataType : Nat) (pv : ProtocolVersion) (nonceTail : Nat)
  deriving DecidableEq, Repr

/-- An outbound packet: the command and total size handed to build_header,
plus the structured content. -/
structure SentPacket where
  cmd : Nat
  size : Nat
  payload : PacketBody
  deriving DecidableEq, Repr

/-- Outcomes of the external calls (libsodium, protobuf, socket send,
connection.c upper layer) performed while receive_packet handles one frame.
Each field corresponds to one call site in tunnel_protocol.c. -/
structure Oracle where
  forwardReplyUnpack : List Nat → Option ForwardReply
  forwardErrorUnpack : List Nat → Option ForwardError
  keypair : Nat × Nat
  heloBoxOk : Bool
  cookieOpen : Option Cookie
  beforenm : Option Nat
  innerBox : Option Nat
  vouchNonce : Nat × Nat
  outerBoxOk : Bool
  redyOpen : Option (List Nat)
  mesgOpen : Option (List Nat)
  handleData : ErrorKind
  pvPackedSize : Nat
  mesgBoxOk : Bool
  sendResult : ErrorKind

/-- Modelled from the spec (section 4.4, connection.c is not under src):
connection_set_result records a non-zero result as the error kind and fails
the connection, returning -1; a clean result returns 0. -/
def connection_set_result (c : Conn) (r : ErrorKind) : Int × Conn :=
  if r = ErrorKind.osdg_no_error then (0, c)
  else (-1, { c with errorKind := r, status := ConnStatus.osdg_failed })

/-- Modelled from the spec (section 4.4, connection.c is not under src):
connection_set_status updates the status field (and notifies the status
callback, which has no further effect on the modelled state). -/
def connection_set_status (c : Conn) (s : ConnStatus) : Conn :=
  { c with status := s }

/-- sendTELL (tunnel_protocol.c lines 28-39): builds a bare packet header
with command CMD_TELL and total size equal to sizeof(struct packet_header),
sends it, and returns connection_set_result of the send outcome. -/
def sendTELL (conn : Conn) (o : Oracle) : Int × Conn × List SentPacket :=
  let rc := connection_set_result conn o.sendResult
  (rc.1, rc.2, [{ cmd := CMD_TELL, size := PACKET_HEADER_SIZE, payload := PacketBody.tellBody }])

/-- sendMESG together with get_MESG_packet and send_MESG_packet
(tunnel_protocol.c lines 406-472): check the outgoing packet against the
buffer size, consume a client nonce, encrypt in place with box_afternm and
send; returns the osdg result together with the updated connection and the
packets sent. -/
def sendMESG (client : Conn) (o : Oracle) (dataType : Nat) (pv : ProtocolVersion) :
    ErrorKind × Conn × List SentPacket :=
  let dataSize := o.pvPackedSize + 1
  if PACKETMESG_SIZE + dataSize > client.bufferSize then
    (ErrorKind.osdg_buffer_exceeded,
      { client with errorKind := ErrorKind.osdg_buffer_exceeded }, [])
  else
    let nr := client_get_nonce client
    if o.mesgBoxOk then
      (o.sendResult, nr.2,
        [{ cmd := CMD_MESG, size := PACKETMESG_SIZE + dataSize,
           payload := PacketBody.mesgBody dataType pv nr.1 }])
    else
      (ErrorKind.osdg_crypto_core_error, nr.2, [])

/-- The 16-bit packet magic as read out of the frame: bytes at receive
buffer offsets 2 and 3, which are offsets 0 and 1 of the frame body. -/
def magicOf (body : List Nat) : Nat := bytesToNat (body.take 2)

/-- The 4-byte command tag as read out of the frame: receive buffer offsets
4 to 7, which are body offsets 2 to 5. -/
def cmdOf (body : List Nat) : Nat := bytesToNat ((body.drop 2).take 4)

/-- The 32-byte server long-term public key carried by WELC, read from body
offsets 6 onward. -/
def serverKeyOf (body : List Nat) : Nat := bytesToNat ((body.drop 6).take 32)

/-- Dispatch of a complete frame, translating receive_packet from the point
where a full packet is available (tunnel_protocol.c lines 107-404).  The
argument body holds the frame bytes after the two length-prefix bytes, so
receiveBuffer[2] is body[0].  Results are the int return value of
receive_packet, the updated connection, and the packets sent. -/
def dispatch_packet (client : Conn) (body : List Nat) (o : Oracle) :
    Int × Conn × List SentPacket :=
  if body.getD 0 0 = MSG_FORWARD_HOLD then
    /- three byte MSG_FORWARD_HOLD packet: ignore (lines 112-115) -/
    (0, client, [])
  else if body.getD 0 0 = MSG_FORWARD_REPLY then
    match o.forwardReplyUnpack body.tail with
    | none => (-1, { client with errorKind := ErrorKind.osdg_protocol_error }, [])
    | some reply =>
      if reply.signature ≠ FORWARD_REMOTE_SIGNATURE then
        /- wrong forwarding signature: logged, and -1 returned; the C code
           does not assign errorKind on this path (lines 130-137) -/
        (-1, client, [])
      else
        sendTELL client o
  else if body.getD 0 0 = MSG_FORWARD_ERROR then
    match o.forwardErrorUnpack body.tail with
    | none => (-1, { client with errorKind := ErrorKind.osdg_protocol_error }, [])
    | some reply =>
      let kind :=
        if reply.code = FORWARD_SERVER_ERROR then ErrorKind.osdg_server_error
        else if reply.code = FORWARD_PEER_TIMEOUT then ErrorKind.osdg_peer_timeout
        else ErrorKind.osdg_protocol_error
      (-1, { client with errorKind := kind }, [])
  else if 2 + body.length < PACKET_HEADER_SIZE then
    (-1, { client with errorKind := ErrorKind.osdg_protocol_error }, [])
  else if magicOf body ≠ PACKET_MAGIC then
    (-1, { client with errorKind := ErrorKind.osdg_protocol_error }, [])
  else if cmdOf body = CMD_WELC then
    let c1 := { client with
      serverPubkey := serverKeyOf body,
      clientTempPubkey := o.keypair.1,
      clientTempSecret := o.keypair.2 }
    let nr := client_get_nonce c1
    if o.heloBoxOk then
      let rc := connection_set_result nr.2 o.sendResult
      (rc.1, rc.2,
        [{ cmd := CMD_HELO, size := PACKETHELO_SIZE,
           payload := PacketBody.heloBody nr.2.clientTempPubkey nr.1 }])
    else
      (-1, { nr.2 with errorKind := ErrorKind.osdg_crypto_core_error }, [])
  else if cmdOf body = CMD_COOK then
    match o.cookieOpen with
    | none => (-1, { client with errorKind := ErrorKind.osdg_decryption_error }, [])
    | some cookie =>
      let c1 := { client with serverCookie := cookie.cookie }
      match o.beforenm with
      | none => (-1, { c1 with errorKind := ErrorKind.osdg_crypto_core_error }, [])
      | some key =>
        let c2 := { c1 with beforenmData := key }
        match o.innerBox with
        | none => (-1, { c2 with errorKind := ErrorKind.osdg_crypto_core_error }, [])
        | some inner =>
          let cert :=
            if c2.mode = ConnMode.mode_grid then ((1 : Nat), certificate_record)
            else ((0 : Nat), ([] : List Nat))
          let outer : VouchOuter :=
            { clientPubkey := c2.clientPubkey, nonce0 := o.vouchNonce.1,
              nonce1 := o.vouchNonce.2, innerBox := inner,
              haveCertificate := cert.1, certData := cert.2 }
          let nr := client_get_nonce c2
          if o.outerBoxOk then
            let rc := connection_set_result nr.2 o.sendResult
            (rc.1, rc.2,
              [{ cmd := CMD_VOCH, size := PACKETVOCH_SIZE + cert.2.length,
                 payload := PacketBody.vochBody c2.serverCookie nr.1 outer
                   (VOUCH_OUTER_FIXED + cert.2.length) }])
          else
            (-1, { nr.2 with errorKind := ErrorKind.osdg_crypto_core_error }, [])
  else if cmdOf body = CMD_REDY then
    match o.redyOpen with
    | none => (-1, { client with errorKind := ErrorKind.osdg_decryption_error }, [])
    | some _ =>
      if client.mode ≠ ConnMode.mode_grid then
        if client.mode = ConnMode.mode_peer then
          (0, connection_set_status client ConnStatus.osdg_connected, [])
        else
          (0, client, [])
      else
        let s := sendMESG client o MSG_PROTOCOL_VERSION
          { magic := PROTOCOL_VERSION_MAGIC, major := PROTOCOL_VERSION_MAJOR,
            minor := PROTOCOL_VERSION_MINOR }
        let rc := connection_set_result s.2.1 s.1
        (rc.1, rc.2, s.2.2)
  else if cmdOf body = CMD_MESG then
    match o.mesgOpen with
    | none => (-1, { client with errorKind := ErrorKind.osdg_decryption_error }, [])
    | some _ =>
      let rc := connection_set_result client o.handleData
      (rc.1, rc.2, [])
  else
    /- unknown packet: logged and ignored -/
    (0, client, [])

/-- receive_packet (tunnel_protocol.c lines 71-404), modelled for one call
that is offered the two big-endian length-prefix bytes b0 b1 and the frame
body.  The declared size is checked against the buffer before anything
else; the frame is dispatched only when all declared bytes have arrived
(otherwise receive_data has not completed a packet and the function
returns without protocol action, the ret less-or-equal zero path of the
source). -/
def receive_packet (client : Conn) (b0 b1 : Nat) (body : List Nat) (o : Oracle) :
    Int × Conn × List SentPacket :=
  let size := b0 * 256 + b1
  if size + 2 > client.bufferSize then
    (-1, { client with errorKind := ErrorKind.osdg_buffer_exceeded }, [])
  else if body.length = size then
    dispatch_packet client body o
  else
    (0, client, [])

namespace ClientProtocol

/-- Protocol-level state of struct _osdg_client of the older client found
in src/unnamed/part_001 (only the field its MESG dispatch mutates). -/
structure OsdgClient where
  errorKind : ErrorKind
  deriving DecidableEq, Repr

/-- Which of the three MESG dispatch branches of the older client ran:
the MSG_PROTOCOL_VERSION branch, the MSG_PEER_REPLY branch, or the final
log-and-ignore branch for unhandled types. -/
inductive MesgBranch
  | pvBranch
  | peerReplyBranch
  | otherBranch
  deriving DecidableEq, Repr

/-- Outcomes of the external calls made by the older client's MESG
dispatch (protobuf unpack, peer lookup, peer reply handling). -/
structure ClientOracle where
  pvUnpack : List Nat → Option ProtocolVersion
  peerReplyUnpack : List Nat → Option PeerReply
  findPeer : Nat → Bool
  peerHandleResult : Int

/-- The CMD_MESG dispatch of the older client's receive_packet
(src/unnamed/part_001 lines 262-345) after a successful decryptMESG, acting
on the decrypted payload's dataType byte and protobuf data.  The argument
ret holds the receive_data byte count, which is positive on this path and
is what the source returns when the protocol version magic mismatches.
Note the source's second condition is an assignment,
payload dataType becomes MSG_PEER_REPLY, and since that constant is
non-zero the condition is always true: the branch runs for every dataType
other than MSG_PROTOCOL_VERSION, and the final log-and-ignore branch is
dead code.  The returned triple is the int result of receive_packet, the
updated client and the branch that ran. -/
def handle_MESG (cl : OsdgClient) (ret : Int) (dataType : Nat) (data : List Nat)
    (o : ClientOracle) : Int × OsdgClient × MesgBranch :=
  if dataType = MSG_PROTOCOL_VERSION then
    match o.pvUnpack data with
    | none => (-1, { cl with errorKind := ErrorKind.osdg_protocol_error }, MesgBranch.pvBranch)
    | some pv =>
      let ret2 : Int :=
        if pv.magic ≠ PROTOCOL_VERSION_MAGIC then ret
        else if pv.major ≠ PROTOCOL_VERSION_MAJOR ∨ pv.minor ≠ PROTOCOL_VERSION_MINOR then -1
        else 0
      if ret2 ≠ 0 then
        (ret2, { cl with errorKind := ErrorKind.osdg_protocol_error }, MesgBranch.pvBranch)
      else
        (0, cl, MesgBranch.pvBranch)
  else if MSG_PEER_REPLY ≠ 0 then
    /- source line 307: else if (payload->dataType = MSG_PEER_REPLY) -/
    match o.peerReplyUnpack data with
    | none => (0, cl, MesgBranch.peerReplyBranch)
    | some _ =>
      /- peer lookup and peer_handle_connect_reply are external; the
         function falls through to its final return 0 either way -/
      (0, cl, MesgBranch.peerReplyBranch)
  else
    (0, cl, MesgBranch.otherBranch)

end ClientProtocol

/-- A concrete connection used to instantiate the theorems below on
explicit inputs. -/
def testConn : Conn :=
  { mode := ConnMode.mode_grid, status := ConnStatus.osdg_handshaking,
    errorKind := ErrorKind.osdg_no_error, nonce := 0, bufferSize := 1536,
    clientPubkey := 101, clientSecret := 102, clientTempPubkey := 103,
    clientTempSecret := 104, serverPubkey := 105, serverCookie := 106,
    beforenmData := 107 }

/-- A baseline oracle for concrete runs: sends succeed, encryptions
succeed, nothing decodes. -/
def baseOracle : Oracle :=
  { forwardReplyUnpack := fun _ => none
    forwardErrorUnpack := fun _ => none
    keypair := (10, 11)
    heloBoxOk := true
    cookieOpen := none
    beforenm := none
    innerBox := none
    vouchNonce := (20, 21)
    outerBoxOk := true
    redyOpen := none
    mesgOpen := none
    handleData := ErrorKind.osdg_no_error
    pvPackedSize := 12
    mesgBoxOk := true
    sendResult := ErrorKind.osdg_no_error }

/-- Oracle whose forward-error unpack yields a server-error code. -/
def feOracle : Oracle :=
  { baseOracle with forwardErrorUnpack := fun _ => some { code := FORWARD_SERVER_ERROR } }

/-- Oracle whose forward-reply unpack yields a reply with a wrong
signature. -/
def badSigOracle : Oracle :=
  { baseOracle with forwardReplyUnpack := fun _ => some { signature := "WRONG" } }

/-- Oracle whose forward-reply unpack yields a reply carrying the expected
forwarding signature. -/
def goodSigOracle : Oracle :=
  { baseOracle with forwardReplyUnpack := fun _ => some { signature := FORWARD_REMOTE_SIGNATURE } }

/-- Oracle under which the REDY box decrypts. -/
def redyOracle : Oracle :=
  { baseOracle with redyOpen := some [0] }

/-- Oracle under which the COOK cookie box opens and the vouch boxes are
built successfully. -/
def cookOracle : Oracle :=
  { baseOracle with
    cookieOpen := some (⟨31, 32⟩ : Cookie)
    beforenm := some 33
    innerBox := some 34 }

/-- A concrete old-client state for instantiating the part_001 theorems. -/
def testOldClient : ClientProtocol.OsdgClient :=
  { errorKind := ErrorKind.osdg_no_error }

/-- A concrete old-client oracle: nothing decodes, no peers exist. -/
def testClientOracle : ClientProtocol.ClientOracle :=
  { pvUnpack := fun _ => none
    peerReplyUnpack := fun _ => none
    findPeer := fun _ => false
    peerHandleResult := 0 }

/-- Old-client oracle whose ProtocolVersion unpack yields the matching
version triple. -/
def pvGoodOracle : ClientProtocol.ClientOracle :=
  { testClientOracle with
    pvUnpack := fun _ =>
      some (⟨PROTOCOL_VERSION_MAGIC, PROTOCOL_VERSION_MAJOR, PROTOCOL_VERSION_MINOR⟩ :
        ProtocolVersion) }

/-- SWAP_64 of an explicit eight-byte composition reverses the bytes. -/
theorem SWAP_64_bytes (a b c d e f g h : Nat)
    (ha : a < 256) (hb : b < 256) (hc : c < 256) (hd : d < 256)
    (he : e < 256) (hf : f < 256) (hg : g < 256) (hh : h < 256) :
    SWAP_64 (a * 2 ^ 56 + b * 2 ^ 48 + c * 2 ^ 40 + d * 2 ^ 32 +
        e * 2 ^ 24 + f * 2 ^ 16 + g * 2 ^ 8 + h) =
      h * 2 ^ 56 + g * 2 ^ 48 + f * 2 ^ 40 + e * 2 ^ 32 +
        d * 2 ^ 24 + c * 2 ^ 16 + b * 2 ^ 8 + a := by
  have e0 : (a * 2 ^ 56 + b * 2 ^ 48 + c * 2 ^ 40 + d * 2 ^ 32 +
        e * 2 ^ 24 + f * 2 ^ 16 + g * 2 ^ 8 + h) % 256 = h := by omega
  have e1 : (a * 2 ^ 56 + b * 2 ^ 48 + c * 2 ^ 40 + d * 2 ^ 32 +
        e * 2 ^ 24 + f * 2 ^ 16 + g * 2 ^ 8 + h) / 2 ^ 8 % 256 = g := by omega
  have e2 : (a * 2 ^ 56 + b * 2 ^ 48 + c * 2 ^ 40 + d * 2 ^ 32 +
        e * 2 ^ 24 + f * 2 ^ 16 + g * 2 ^ 8 + h) / 2 ^ 16 % 256 = f := by omega
  have e3 : (a * 2 ^ 56 + b * 2 ^ 48 + c * 2 ^ 40 + d * 2 ^ 32 +
        e * 2 ^ 24 + f * 2 ^ 16 + g * 2 ^ 8 + h) / 2 ^ 24 % 256 = e := by omega
  have e4 : (a * 2 ^ 56 + b * 2 ^ 48 + c * 2 ^ 40 + d * 2 ^ 32 +
        e * 2 ^ 24 + f * 2 ^ 16 + g * 2 ^ 8 + h) / 2 ^ 32 % 256 = d := by omega
  have e5 : (a * 2 ^ 56 + b * 2 ^ 48 + c * 2 ^ 40 + d * 2 ^ 32 +
        e * 2 ^ 24 + f * 2 ^ 16 + g * 2 ^ 8 + h) / 2 ^ 40 % 256 = c := by omega
  have e6 : (a * 2 ^ 56 + b * 2 ^ 48 + c * 2 ^ 40 + d * 2 ^ 32 +
        e * 2 ^ 24 + f * 2 ^ 16 + g * 2 ^ 8 + h) / 2 ^ 48 % 256 = b := by omega
  have e7 : (a * 2 ^ 56 + b * 2 ^ 48 + c * 2 ^ 40 + d * 2 ^ 32 +
        e * 2 ^ 24 + f * 2 ^ 16 + g * 2 ^ 8 + h) / 2 ^ 56 % 256 = a := by omega
  unfold SWAP_64
  rw [e0, e1, e2, e3, e4, e5, e6, e7]

/-- SWAP_64 applied twice restores any 64-bit value: byte reversal is an
involution on eight-byte numbers. -/
theorem SWAP_64_involutive (n : Nat) (h : n < 2 ^ 64) : SWAP_64 (SWAP_64 n) = n := by
  have hbyte : ∀ m : Nat, m % 256 < 256 := fun m => Nat.mod_lt _ (by norm_num)
  have key := SWAP_64_bytes (n % 256) (n / 2 ^ 8 % 256) (n / 2 ^ 16 % 256) (n / 2 ^ 24 % 256)
    (n / 2 ^ 32 % 256) (n / 2 ^ 40 % 256) (n / 2 ^ 48 % 256) (n / 2 ^ 56 % 256)
    (hbyte n) (hbyte (n / 2 ^ 8)) (hbyte (n / 2 ^ 16)) (hbyte (n / 2 ^ 24))
    (hbyte (n / 2 ^ 32)) (hbyte (n / 2 ^ 40)) (hbyte (n / 2 ^ 48)) (hbyte (n / 2 ^ 56))
  have hs : SWAP_64 n =
      n % 256 * 2 ^ 56 + n / 2 ^ 8 % 256 * 2 ^ 48 + n / 2 ^ 16 % 256 * 2 ^ 40 +
        n / 2 ^ 24 % 256 * 2 ^ 32 + n / 2 ^ 32 % 256 * 2 ^ 24 + n / 2 ^ 40 % 256 * 2 ^ 16 +
        n / 2 ^ 48 % 256 * 2 ^ 8 + n / 2 ^ 56 % 256 := rfl
  rw [hs, key]
  clear key hs hbyte
  have h1 : n / 2 ^ 8 / 2 ^ 8 = n / 2 ^ 16 := by
    rw [Nat.div_div_eq_div_mul]; norm_num
  have h2 : n / 2 ^ 16 / 2 ^ 8 = n / 2 ^ 24 := by
    rw [Nat.div_div_eq_div_mul]; norm_num
  have h3 : n / 2 ^ 24 / 2 ^ 8 = n / 2 ^ 32 := by
    rw [Nat.div_div_eq_div_mul]; norm_num
  have h4 : n / 2 ^ 32 / 2 ^ 8 = n / 2 ^ 40 := by
    rw [Nat.div_div_eq_div_mul]; norm_num
  have h5 : n / 2 ^ 40 / 2 ^ 8 = n / 2 ^ 48 := by
    rw [Nat.div_div_eq_div_mul]; norm_num
  have h6 : n / 2 ^ 48 / 2 ^ 8 = n / 2 ^ 56 := by
    rw [Nat.div_div_eq_div_mul]; norm_num
  omega

/-- SWAP_64 is injective on 64-bit values. -/
theorem SWAP_64_injective (m n : Nat) (hm : m < 2 ^ 64) (hn : n < 2 ^ 64)
    (h : SWAP_64 m = SWAP_64 n) : m = n := by
  rw [← SWAP_64_involutive m hm, ← SWAP_64_involutive n hn, h]

/-- The nonce counter after k calls to client_get_nonce, absent 64-bit
wraparound, is the starting counter plus k. -/
theorem run_get_nonce_counter (c : Conn) (k : Nat) (h : c.nonce + k < 2 ^ 64) :
    (run_get_nonce c k).nonce = c.nonce + k := by
  induction k with
  | zero => rfl
  | succ k ih =>
    have hk : c.nonce + k < 2 ^ 64 := by omega
    simp only [run_get_nonce, client_get_nonce, ih hk]
    omega

/-- Claim C1, counterexample: client_get_nonce does not return numerically
strictly increasing values.  Starting from a connection whose counter is
255, the first call returns SWAP_64 255 and the second returns SWAP_64 256,
which is smaller: the byte-swapped return value of the later call is below
the earlier one. -/
theorem C1_nonce_counterexample :
    (client_get_nonce (client_get_nonce { testConn with nonce := 255 }).2).1 <
      (client_get_nonce { testConn with nonce := 255 }).1 := by
  decide

/-- Claim C1 (amended): for any two calls i < j to client_get_nonce on a
connection, as long as the 64-bit counter does not wrap, the counter value
consumed by call j is strictly greater than the one consumed by call i, the
returned big-endian nonces decode (by a second byte swap) to strictly
increasing values, and the returned nonces are pairwise distinct — the raw
returned value itself is not numerically monotonic because of the byte
swap. -/
theorem C1_nonce_monotone_amended (c : Conn) (i j : Nat) (hij : i < j)
    (hw : c.nonce + j < 2 ^ 64) :
    (run_get_nonce c i).nonce < (run_get_nonce c j).nonce ∧
    SWAP_64 (returned_nonce c i) < SWAP_64 (returned_nonce c j) ∧
    returned_nonce c i ≠ returned_nonce c j := by
  have hi : c.nonce + i < 2 ^ 64 := by omega
  have ri := run_get_nonce_counter c i hi
  have rj := run_get_nonce_counter c j hw
  have hri : returned_nonce c i = SWAP_64 (c.nonce + i) := by
    simp only [returned_nonce, client_get_nonce]
    rw [ri]
  have hrj : returned_nonce c j = SWAP_64 (c.nonce + j) := by
    simp only [returned_nonce, client_get_nonce]
    rw [rj]
  refine ⟨by omega, ?_, ?_⟩
  · rw [hri, hrj, SWAP_64_involutive _ hi, SWAP_64_involutive _ hw]
    omega
  · rw [hri, hrj]
    intro heq
    have := SWAP_64_injective _ _ hi hw heq
    omega

/-- Claim C1, witness: the amended statement instantiated at the first two
calls on the concrete test connection. -/
theorem C1_nonce_monotone_witness :
    (run_get_nonce testConn 0).nonce < (run_get_nonce testConn 1).nonce ∧
    SWAP_64 (returned_nonce testConn 0) < SWAP_64 (returned_nonce testConn 1) ∧
    returned_nonce testConn 0 ≠ returned_nonce testConn 1 :=
  C1_nonce_monotone_amended testConn 0 1 (by decide) (by decide)

/-- When the declared size fits the buffer and all declared bytes have
arrived, receive_packet hands the frame to the dispatch stage. -/
theorem receive_packet_complete (client : Conn) (b0 b1 : Nat) (body : List Nat) (o : Oracle)
    (hbuf : b0 * 256 + b1 + 2 ≤ client.bufferSize) (hlen : body.length = b0 * 256 + b1) :
    receive_packet client b0 b1 body o = dispatch_packet client body o := by
  have h1 : ¬ (b0 * 256 + b1 + 2 > client.bufferSize) := by omega
  simp [receive_packet, h1, hlen]

/-- Claim C2: a frame whose declared big-endian size plus the two length
bytes exceeds bufferSize makes receive_packet record buffer_exceeded and
return -1 right after the length bytes; the result does not depend on the
body bytes or on any cryptographic outcome, so no body byte is consumed
and no crypto runs. -/
theorem C2_buffer_exceeded (client : Conn) (b0 b1 : Nat) (body : List Nat) (o : Oracle)
    (hover : b0 * 256 + b1 + 2 > client.bufferSize) :
    receive_packet client b0 b1 body o =
      (-1, { client with errorKind := ErrorKind.osdg_buffer_exceeded }, []) := by
  simp [receive_packet, hover]

/-- Claim C2, witness: a declared size of 0xFFFF against the 1536-byte test
buffer. -/
theorem C2_buffer_exceeded_witness :
    receive_packet testConn 255 255 [] baseOracle =
      (-1, { testConn with errorKind := ErrorKind.osdg_buffer_exceeded }, []) :=
  C2_buffer_exceeded testConn 255 255 [] baseOracle (by decide)

/-- Claim C10: any complete frame whose byte at offset 2 (the first body
byte) is MSG_FORWARD_HOLD makes receive_packet return 0 with the connection
unchanged and nothing sent, whatever the connection's mode and status and
whatever the rest of the frame holds — in particular this runs before the
packet-magic check. -/
theorem C10_forward_hold_ignored (client : Conn) (b0 b1 : Nat) (body : List Nat) (o : Oracle)
    (hbuf : b0 * 256 + b1 + 2 ≤ client.bufferSize) (hlen : body.length = b0 * 256 + b1)
    (hhold : body.getD 0 0 = MSG_FORWARD_HOLD) :
    receive_packet client b0 b1 body o = (0, client, []) := by
  rw [receive_packet_complete client b0 b1 body o hbuf hlen]
  simp only [dispatch_packet]
  rw [hhold]
  simp

/-- Claim C10, witness: a one-byte MSG_FORWARD_HOLD frame on the concrete
test connection. -/
theorem C10_forward_hold_witness :
    receive_packet testConn 0 1 [15] baseOracle = (0, testConn, []) :=
  C10_forward_hold_ignored testConn 0 1 [15] baseOracle (by decide) (by decide) (by decide)

/-- Claim C3: a complete, successfully decoded MSG_FORWARD_ERROR frame makes
receive_packet return -1 and record server_error for code
FORWARD_SERVER_ERROR, peer_timeout for code FORWARD_PEER_TIMEOUT, and
protocol_error for any other code. -/
theorem C3_forward_error (client : Conn) (b0 b1 : Nat) (body : List Nat) (o : Oracle)
    (err : ForwardError)
    (hbuf : b0 * 256 + b1 + 2 ≤ client.bufferSize) (hlen : body.length = b0 * 256 + b1)
    (hhead : body.getD 0 0 = MSG_FORWARD_ERROR)
    (hdec : o.forwardErrorUnpack body.tail = some err) :
    (err.code = FORWARD_SERVER_ERROR →
      receive_packet client b0 b1 body o =
        (-1, { client with errorKind := ErrorKind.osdg_server_error }, [])) ∧
    (err.code = FORWARD_PEER_TIMEOUT →
      receive_packet client b0 b1 body o =
        (-1, { client with errorKind := ErrorKind.osdg_peer_timeout }, [])) ∧
    (err.code ≠ FORWARD_SERVER_ERROR → err.code ≠ FORWARD_PEER_TIMEOUT →
      receive_packet client b0 b1 body o =
        (-1, { client with errorKind := ErrorKind.osdg_protocol_error }, [])) := by
  have hrp := receive_packet_complete client b0 b1 body o hbuf hlen
  refine ⟨fun h1 => ?_, fun h1 => ?_, fun h1 h2 => ?_⟩
  · rw [hrp]
    simp only [dispatch_packet]
    rw [hhead, hdec]
    simp [h1, MSG_FORWARD_HOLD, MSG_FORWARD_REPLY, MSG_FORWARD_ERROR,
      FORWARD_SERVER_ERROR, FORWARD_PEER_TIMEOUT]
  · rw [hrp]
    simp only [dispatch_packet]
    rw [hhead, hdec]
    simp [h1, MSG_FORWARD_HOLD, MSG_FORWARD_REPLY, MSG_FORWARD_ERROR,
      FORWARD_SERVER_ERROR, FORWARD_PEER_TIMEOUT]
  · rw [hrp]
    simp only [dispatch_packet]
    rw [hhead, hdec]
    simp [h1, h2, MSG_FORWARD_HOLD, MSG_FORWARD_REPLY, MSG_FORWARD_ERROR]

/-- Claim C3, witness: a decoded FORWARD_SERVER_ERROR code on the concrete
test connection. -/
theorem C3_forward_error_witness :
    receive_packet testConn 0 2 [18, 0] feOracle =
      (-1, { testConn with errorKind := ErrorKind.osdg_server_error }, []) :=
  (C3_forward_error testConn 0 2 [18, 0] feOracle ⟨FORWARD_SERVER_ERROR⟩
    (by decide) (by decide) (by decide) rfl).1 rfl

/-- Claim C4, counterexample: a complete MSG_FORWARD_REPLY frame whose
decoded signature differs from FORWARD_REMOTE_SIGNATURE makes
receive_packet return -1, yet the connection's error kind stays
osdg_no_error — the source returns without assigning errorKind on that
path, so the mismatch is not captured as protocol_error. -/
theorem C4_signature_counterexample :
    (receive_packet testConn 0 2 [17, 0] badSigOracle).1 = -1 ∧
    (receive_packet testConn 0 2 [17, 0] badSigOracle).2.1.errorKind ≠
      ErrorKind.osdg_protocol_error := by
  constructor
  · rfl
  · decide

/-- Claim C4 (amended): on a complete MSG_FORWARD_REPLY frame whose decoded
signature differs from the FORWARD_REMOTE_SIGNATURE constant,
receive_packet fails the connection by returning -1 and sends nothing, but
leaves the connection state — including the error kind — unchanged: the
mismatch is only logged, not recorded as protocol_error. -/
theorem C4_signature_amended (client : Conn) (b0 b1 : Nat) (body : List Nat) (o : Oracle)
    (reply : ForwardReply)
    (hbuf : b0 * 256 + b1 + 2 ≤ client.bufferSize) (hlen : body.length = b0 * 256 + b1)
    (hhead : body.getD 0 0 = MSG_FORWARD_REPLY)
    (hdec : o.forwardReplyUnpack body.tail = some reply)
    (hsig : reply.signature ≠ FORWARD_REMOTE_SIGNATURE) :
    receive_packet client b0 b1 body o = (-1, client, []) := by
  rw [receive_packet_complete client b0 b1 body o hbuf hlen]
  simp only [dispatch_packet]
  rw [hhead, hdec]
  simp [hsig, MSG_FORWARD_HOLD, MSG_FORWARD_REPLY]

/-- Claim C4, witness: the amended statement instantiated at the concrete
wrong-signature run. -/
theorem C4_signature_amended_witness :
    receive_packet testConn 0 2 [17, 0] badSigOracle = (-1, testConn, []) :=
  C4_signature_amended testConn 0 2 [17, 0] badSigOracle ⟨"WRONG"⟩
    (by decide) (by decide) (by decide) rfl (by decide)

/-- Claim C5: on a complete MSG_FORWARD_REPLY frame whose decoded signature
equals the FORWARD_REMOTE_SIGNATURE constant, receive_packet sends exactly
one packet: a TELL whose total size is the bare packet header, i.e. with no
payload. -/
theorem C5_forward_reply_tell (client : Conn) (b0 b1 : Nat) (body : List Nat) (o : Oracle)
    (reply : ForwardReply)
    (hbuf : b0 * 256 + b1 + 2 ≤ client.bufferSize) (hlen : body.length = b0 * 256 + b1)
    (hhead : body.getD 0 0 = MSG_FORWARD_REPLY)
    (hdec : o.forwardReplyUnpack body.tail = some reply)
    (hsig : reply.signature = FORWARD_REMOTE_SIGNATURE) :
    (receive_packet client b0 b1 body o).2.2 =
      [{ cmd := CMD_TELL, size := PACKET_HEADER_SIZE, payload := PacketBody.tellBody }] := by
  rw [receive_packet_complete client b0 b1 body o hbuf hlen]
  simp only [dispatch_packet]
  rw [hhead, hdec]
  simp [hsig, sendTELL, MSG_FORWARD_HOLD, MSG_FORWARD_REPLY]

/-- Claim C5, witness: the concrete matching-signature run sends the bare
TELL. -/
theorem C5_forward_reply_tell_witness :
    (receive_packet testConn 0 2 [17, 0] goodSigOracle).2.2 =
      [{ cmd := CMD_TELL, size := PACKET_HEADER_SIZE, payload := PacketBody.tellBody }] :=
  C5_forward_reply_tell testConn 0 2 [17, 0] goodSigOracle ⟨FORWARD_REMOTE_SIGNATURE⟩
    (by decide) (by decide) (by decide) rfl rfl

/-- The REDY tag differs from the WELC tag. -/
theorem cmd_REDY_ne_WELC : CMD_REDY ≠ CMD_WELC := by decide

/-- The REDY tag differs from the COOK tag. -/
theorem cmd_REDY_ne_COOK : CMD_REDY ≠ CMD_COOK := by decide

/-- The COOK tag differs from the WELC tag. -/
theorem cmd_COOK_ne_WELC : CMD_COOK ≠ CMD_WELC := by decide

/-- Claim C6: on a complete frame that passes the header checks and carries
command REDY, with the box decrypting successfully: in peer mode the status
becomes osdg_connected, nothing is sent, and the rest of the connection is
untouched; in grid mode (with the outgoing MESG fitting the buffer and the
encryption and send succeeding) the status and error kind are unchanged —
only the nonce counter advances — and exactly one MESG is sent whose inner
type is MSG_PROTOCOL_VERSION with the client's magic, major and minor
constants. -/
theorem C6_redy (client : Conn) (b0 b1 : Nat) (body : List Nat) (o : Oracle) (pl : List Nat)
    (hbuf : b0 * 256 + b1 + 2 ≤ client.bufferSize) (hlen : body.length = b0 * 256 + b1)
    (h0 : body.getD 0 0 ≠ MSG_FORWARD_HOLD) (h1 : body.getD 0 0 ≠ MSG_FORWARD_REPLY)
    (h2 : body.getD 0 0 ≠ MSG_FORWARD_ERROR)
    (hsz : PACKET_HEADER_SIZE ≤ 2 + body.length)
    (hmagic : magicOf body = PACKET_MAGIC)
    (hcmd : cmdOf body = CMD_REDY)
    (hopen : o.redyOpen = some pl) :
    (client.mode = ConnMode.mode_peer →
      receive_packet client b0 b1 body o =
        (0, { client with status := ConnStatus.osdg_connected }, [])) ∧
    (client.mode = ConnMode.mode_grid → o.mesgBoxOk = true →
      PACKETMESG_SIZE + o.pvPackedSize + 1 ≤ client.bufferSize →
      o.sendResult = ErrorKind.osdg_no_error →
      receive_packet client b0 b1 body o =
        (0, { client with nonce := (client.nonce + 1) % 2 ^ 64 },
          [{ cmd := CMD_MESG, size := PACKETMESG_SIZE + (o.pvPackedSize + 1),
             payload := PacketBody.mesgBody MSG_PROTOCOL_VERSION
               ⟨PROTOCOL_VERSION_MAGIC, PROTOCOL_VERSION_MAJOR, PROTOCOL_VERSION_MINOR⟩
               (SWAP_64 client.nonce) }])) := by
  have hns : ¬ (2 + body.length < PACKET_HEADER_SIZE) := by omega
  have hnm : ¬ (magicOf body ≠ PACKET_MAGIC) := by simp [hmagic]
  have hrp := receive_packet_complete client b0 b1 body o hbuf hlen
  constructor
  · intro hm
    rw [hrp]
    simp only [dispatch_packet]
    rw [hcmd, hopen]
    rw [if_neg h0, if_neg h1, if_neg h2, if_neg hns, if_neg hnm,
      if_neg cmd_REDY_ne_WELC, if_neg cmd_REDY_ne_COOK, if_pos rfl]
    simp [hm, connection_set_status]
  · intro hm hbox hfit hsend
    have hnf : ¬ (PACKETMESG_SIZE + (o.pvPackedSize + 1) > client.bufferSize) := by omega
    rw [hrp]
    simp only [dispatch_packet]
    rw [hcmd, hopen]
    rw [if_neg h0, if_neg h1, if_neg h2, if_neg hns, if_neg hnm,
      if_neg cmd_REDY_ne_WELC, if_neg cmd_REDY_ne_COOK, if_pos rfl]
    simp [hm, sendMESG, hnf, hbox, hsend, client_get_nonce, connection_set_result]

/-- Claim C6, witness: a concrete REDY frame on the grid-mode test
connection produces the protocol-version MESG. -/
theorem C6_redy_witness :
    receive_packet testConn 0 6 [221, 7, 82, 69, 68, 89] redyOracle =
      (0, { testConn with nonce := (testConn.nonce + 1) % 2 ^ 64 },
        [{ cmd := CMD_MESG, size := PACKETMESG_SIZE + (redyOracle.pvPackedSize + 1),
           payload := PacketBody.mesgBody MSG_PROTOCOL_VERSION
             ⟨PROTOCOL_VERSION_MAGIC, PROTOCOL_VERSION_MAJOR, PROTOCOL_VERSION_MINOR⟩
             (SWAP_64 testConn.nonce) }]) :=
  (C6_redy testConn 0 6 [221, 7, 82, 69, 68, 89] redyOracle [0]
    (by decide) (by decide) (by decide) (by decide) (by decide) (by decide)
    (by decide) (by decide) rfl).2 rfl rfl (by decide) rfl

/-- The certificate record spelled out byte by byte: prefix length 11, the
ASCII bytes of the eleven-character name, value length 32, and 32 zero
license bytes. -/
theorem certificate_record_eq :
    certificate_record =
      11 :: ([99, 101, 114, 116, 105, 102, 105, 99, 97, 116, 101] ++
        (32 :: List.replicate 32 0)) := by
  decide

/-- The certificate record occupies 45 bytes, the size of struct
certificate_data. -/
theorem certificate_record_length : certificate_record.length = 45 := by
  rw [certificate_record_eq]
  decide

/-- Claim C9: on a complete COOK frame whose cookie box opens and whose
vouch boxes are built successfully, the VOCH packet sent in grid mode has
haveCertificate 1 and the appended certificate record (length byte 11, the
eleven ASCII bytes of the record name, length byte 32, thirty-two zero
bytes), with the encrypted outer region and the packet grown by its 45
bytes; in peer mode the flag is 0, no record is appended, and the encrypted
outer region is exactly the fixed-size outer structure. -/
theorem C9_voch_certificate (client : Conn) (b0 b1 : Nat) (body : List Nat) (o : Oracle)
    (cookie : Cookie) (key inner : Nat)
    (hbuf : b0 * 256 + b1 + 2 ≤ client.bufferSize) (hlen : body.length = b0 * 256 + b1)
    (h0 : body.getD 0 0 ≠ MSG_FORWARD_HOLD) (h1 : body.getD 0 0 ≠ MSG_FORWARD_REPLY)
    (h2 : body.getD 0 0 ≠ MSG_FORWARD_ERROR)
    (hsz : PACKET_HEADER_SIZE ≤ 2 + body.length)
    (hmagic : magicOf body = PACKET_MAGIC)
    (hcmd : cmdOf body = CMD_COOK)
    (hck : o.cookieOpen = some cookie)
    (hbn : o.beforenm = some key)
    (hib : o.innerBox = some inner)
    (hob : o.outerBoxOk = true) :
    (client.mode = ConnMode.mode_grid →
      (receive_packet client b0 b1 body o).2.2 =
        [{ cmd := CMD_VOCH, size := PACKETVOCH_SIZE + 45,
           payload := PacketBody.vochBody cookie.cookie (SWAP_64 client.nonce)
             { clientPubkey := client.clientPubkey, nonce0 := o.vouchNonce.1,
               nonce1 := o.vouchNonce.2, innerBox := inner, haveCertificate := 1,
               certData := 11 :: ([99, 101, 114, 116, 105, 102, 105, 99, 97, 116, 101] ++
                 (32 :: List.replicate 32 0)) }
             (VOUCH_OUTER_FIXED + 45) }]) ∧
    (client.mode = ConnMode.mode_peer →
      (receive_packet client b0 b1 body o).2.2 =
        [{ cmd := CMD_VOCH, size := PACKETVOCH_SIZE,
           payload := PacketBody.vochBody cookie.cookie (SWAP_64 client.nonce)
             { clientPubkey := client.clientPubkey, nonce0 := o.vouchNonce.1,
               nonce1 := o.vouchNonce.2, innerBox := inner, haveCertificate := 0,
               certData := [] }
             VOUCH_OUTER_FIXED }]) := by
  have hns : ¬ (2 + body.length < PACKET_HEADER_SIZE) := by omega
  have hnm : ¬ (magicOf body ≠ PACKET_MAGIC) := by simp [hmagic]
  have hrp := receive_packet_complete client b0 b1 body o hbuf hlen
  constructor
  · intro hm
    rw [hrp]
    simp only [dispatch_packet]
    rw [hcmd, hck, hbn, hib]
    rw [if_neg h0, if_neg h1, if_neg h2, if_neg hns, if_neg hnm,
      if_neg cmd_COOK_ne_WELC, if_pos rfl]
    simp [hm, hob, client_get_nonce, connection_set_result, certificate_record_length,
      certificate_record_eq]
  · intro hm
    rw [hrp]
    simp only [dispatch_packet]
    rw [hcmd, hck, hbn, hib]
    rw [if_neg h0, if_neg h1, if_neg h2, if_neg hns, if_neg hnm,
      if_neg cmd_COOK_ne_WELC, if_pos rfl]
    simp [hm, hob, client_get_nonce, connection_set_result]

/-- Claim C9, witness: a concrete COOK frame on the grid-mode test
connection produces the VOCH with the certificate record. -/
theorem C9_voch_certificate_witness :
    (receive_packet testConn 0 6 [221, 7, 67, 79, 79, 75] cookOracle).2.2 =
      [{ cmd := CMD_VOCH, size := PACKETVOCH_SIZE + 45,
         payload := PacketBody.vochBody (32 : Nat) (SWAP_64 testConn.nonce)
           { clientPubkey := testConn.clientPubkey, nonce0 := cookOracle.vouchNonce.1,
             nonce1 := cookOracle.vouchNonce.2, innerBox := 34, haveCertificate := 1,
             certData := 11 :: ([99, 101, 114, 116, 105, 102, 105, 99, 97, 116, 101] ++
               (32 :: List.replicate 32 0)) }
           (VOUCH_OUTER_FIXED + 45) }] :=
  (C9_voch_certificate testConn 0 6 [221, 7, 67, 79, 79, 75] cookOracle ⟨31, 32⟩ 33 34
    (by decide) (by decide) (by decide) (by decide) (by decide) (by decide)
    (by decide) (by decide) rfl rfl rfl rfl).1 rfl

/-- Claim C7: in the older client, a decrypted MESG carrying
MSG_PROTOCOL_VERSION that decodes successfully either matches the client's
magic, major and minor — in which case the handler returns 0 and the error
kind is untouched — or has a differing major or minor, in which case the
error kind becomes protocol_error and the return value is non-zero (the
receive_data byte count on this path is positive). -/
theorem C7_protocol_version (cl : ClientProtocol.OsdgClient) (ret : Int) (dataType : Nat)
    (data : List Nat) (o : ClientProtocol.ClientOracle) (pv : ProtocolVersion)
    (hret : 0 < ret)
    (hdt : dataType = MSG_PROTOCOL_VERSION)
    (hdec : o.pvUnpack data = some pv) :
    ((pv.magic = PROTOCOL_VERSION_MAGIC ∧ pv.major = PROTOCOL_VERSION_MAJOR ∧
        pv.minor = PROTOCOL_VERSION_MINOR) →
      ClientProtocol.handle_MESG cl ret dataType data o =
        (0, cl, ClientProtocol.MesgBranch.pvBranch)) ∧
    ((pv.major ≠ PROTOCOL_VERSION_MAJOR ∨ pv.minor ≠ PROTOCOL_VERSION_MINOR) →
      (ClientProtocol.handle_MESG cl ret dataType data o).2.1.errorKind =
          ErrorKind.osdg_protocol_error ∧
        (ClientProtocol.handle_MESG cl ret dataType data o).1 ≠ 0) := by
  constructor
  · rintro ⟨hmg, hmj, hmn⟩
    simp only [ClientProtocol.handle_MESG]
    rw [hdt, hdec]
    simp [hmg, hmj, hmn]
  · intro hmm
    simp only [ClientProtocol.handle_MESG]
    rw [hdt, hdec]
    by_cases hmg : pv.magic = PROTOCOL_VERSION_MAGIC
    · have hv : pv.major ≠ PROTOCOL_VERSION_MAJOR ∨ pv.minor ≠ PROTOCOL_VERSION_MINOR := hmm
      simp [hmg, hv]
    · have hr0 : ret ≠ 0 := by omega
      simp [hmg, hr0]

/-- Claim C7, witness: the matching protocol version on the concrete old
client returns 0 and leaves the state untouched. -/
theorem C7_protocol_version_witness :
    ClientProtocol.handle_MESG testOldClient 3 MSG_PROTOCOL_VERSION [] pvGoodOracle =
      (0, testOldClient, ClientProtocol.MesgBranch.pvBranch) :=
  (C7_protocol_version testOldClient 3 MSG_PROTOCOL_VERSION [] pvGoodOracle
    ⟨PROTOCOL_VERSION_MAGIC, PROTOCOL_VERSION_MAJOR, PROTOCOL_VERSION_MINOR⟩
    (by decide) rfl rfl).1 ⟨rfl, rfl, rfl⟩

/-- Claim C8: the older client's MESG dispatch runs its MSG_PEER_REPLY
branch for a decrypted payload of type 7, which is neither
MSG_PROTOCOL_VERSION nor MSG_PEER_REPLY — the source's else-if assigns
instead of comparing, so the peer-reply branch is entered for every type
other than MSG_PROTOCOL_VERSION and the log-and-ignore branch is dead —
contradicting dispatch-by-equality. -/
theorem C8_peer_reply_branch_bug :
    (ClientProtocol.handle_MESG testOldClient 3 7 [] testClientOracle).2.2 =
      ClientProtocol.MesgBranch.peerReplyBranch ∧
    (7 : Nat) ≠ MSG_PEER_REPLY := by
  constructor
  · rfl
  · decide
